import Mathlib

/-!
# Verification of the js13kpwa service-worker caching layer

Shallow embedding of the service-worker code in `src/js13kpwa/sw.js`
(three worker variants, named here SW6, SW7 and SW9 after their cache
version constants) and `src/js13kpwa/app.js` (the page script plus a
fourth worker variant, APP15).  The embedding models the cache storage
as an association list of named buckets, the network as a function from
URL to outcome, and each event handler as an explicit state
transformer.  Theorems below settle the frozen claims about the request
router, the two fetch strategies, the install/activate lifecycle and
the message handler.
-/

namespace PWA

/-- An HTTP response as the worker observes it: status code, the
content-type header when one is set, and a body snapshot.  The platform
constructor `new Response(body, opts)` defaults the status to 200. -/
structure Response where
  status : Nat
  contentType : Option String
  body : String
deriving DecidableEq, Repr

/-- The platform's `response.ok` getter: status in the 2xx range. -/
def Response.ok (r : Response) : Bool :=
  decide (200 ≤ r.status) && decide (r.status < 300)

/-- An intercepted request.  `url` is the full URL string the code reads
as `request.url`; `pathname` is the parsed `url.pathname` the fetch
handlers test; `destination` and `mode` are the platform request
fields read by the router. -/
structure Request where
  method : String
  url : String
  pathname : String
  destination : String
  mode : String
deriving DecidableEq, Repr

/-- A cache bucket (a platform `Cache`): response snapshots keyed by
request URL. -/
abbrev Bucket := List (String × Response)

/-- The cache storage (the platform `CacheStorage`): named buckets in
creation order. -/
abbrev CacheStorage := List (String × Bucket)

/-- Whether the character list `p` starts the character list `l`. -/
def listStartsWith : List Char → List Char → Bool
  | [], _ => true
  | _ :: _, [] => false
  | p :: ps, c :: cs => p == c && listStartsWith ps cs

/-- Whether the character list `p` occurs inside the character list `l`. -/
def listOccurs : List Char → List Char → Bool
  | p, [] => p.isEmpty
  | p, c :: cs => listStartsWith p (c :: cs) || listOccurs p cs

/-- JavaScript's `s.includes(pat)` on strings. -/
def strContains (s pat : String) : Bool :=
  listOccurs pat.data s.data

/-- Whether `s` ends with the suffix `suff` (used for the anchored
extension regex of the fetch handlers). -/
def strEndsWith (s suff : String) : Bool :=
  listStartsWith suff.data.reverse s.data.reverse

/-- The `cache.match(request)` lookup on one bucket. -/
def bucketMatch : Bucket → String → Option Response
  | [], _ => none
  | kv :: rest, url => if kv.fst = url then some kv.snd else bucketMatch rest url

/-- The `cache.put(request, response)` write: overwrite the entry for
the same URL, otherwise append. -/
def bucketPut : Bucket → String → Response → Bucket
  | [], url, r => [(url, r)]
  | kv :: rest, url, r =>
      if kv.fst = url then (url, r) :: rest else kv :: bucketPut rest url r

/-- The `caches.open(name)` call: creates an empty bucket when absent,
otherwise leaves the storage unchanged. -/
def storageOpen : CacheStorage → String → CacheStorage
  | [], name => [(name, [])]
  | kv :: rest, name =>
      if kv.fst = name then kv :: rest else kv :: storageOpen rest name

/-- The bucket stored under `name` (`[]` when absent). -/
def storageBucket : CacheStorage → String → Bucket
  | [], _ => []
  | kv :: rest, name => if kv.fst = name then kv.snd else storageBucket rest name

/-- `caches.open(name)` followed by `cache.put(url, r)` on the opened
bucket. -/
def storagePut : CacheStorage → String → String → Response → CacheStorage
  | [], name, url, r => [(name, [(url, r)])]
  | kv :: rest, name, url, r =>
      if kv.fst = name then (kv.fst, bucketPut kv.snd url r) :: rest
      else kv :: storagePut rest name url r

/-- The `caches.match(request)` lookup: searches every bucket in storage
order and returns the first hit. -/
def cachesMatch : CacheStorage → String → Option Response
  | [], _ => none
  | kv :: rest, url =>
      match bucketMatch kv.snd url with
      | some r => some r
      | none => cachesMatch rest url

/-- The `caches.delete(name)` call. -/
def storageDelete : CacheStorage → String → CacheStorage
  | [], _ => []
  | kv :: rest, name =>
      if kv.fst = name then storageDelete rest name else kv :: storageDelete rest name

/-- The `caches.keys()` enumeration. -/
def storageKeys (s : CacheStorage) : List String :=
  s.map Prod.fst

/-- Outcome of one `fetch(url)` call: a response, or a rejection
carrying an error description. -/
inductive NetOutcome where
  | success (response : Response)
  | failure (err : String)
deriving DecidableEq, Repr

/-- The network, as a function from the fetched URL to its outcome. -/
abbrev Net := String → NetOutcome

/-- The `CACHE_NAMES` object of each worker variant. -/
structure CacheNames where
  static : String
  dynamic : String
deriving DecidableEq, Repr

/-- `Object.values(CACHE_NAMES)`. -/
def CacheNames.values (c : CacheNames) : List String :=
  [c.static, c.dynamic]

/-- The two fetch strategies a fetch handler can dispatch to. -/
inductive Strategy where
  | networkFirst
  | staleWhileRevalidate
deriving DecidableEq, Repr

/-- The alternatives of the static-asset extension regex
`\.(svg|css|js|json|woff2?|ttf|eot|wasm|png|jpe?g|gif)$` shared by all
fetch handlers. -/
def staticExtensions : List String :=
  ["svg", "css", "js", "json", "woff", "woff2", "ttf", "eot", "wasm",
   "png", "jpg", "jpeg", "gif"]

/-- The `isStaticAsset` test of the fetch handlers: the request
destination is style/script/font/image, or `url.pathname` matches the
anchored extension regex. -/
def isStaticAsset (request : Request) : Bool :=
  (["style", "script", "font", "image"].contains request.destination) ||
  staticExtensions.any (fun ext => strEndsWith request.pathname ("." ++ ext))

/-- The object passed to `JSON.stringify` by the offline API synthesis
in `networkFirst`. -/
structure ApiOfflinePayload where
  offline : Bool
  message : String
deriving DecidableEq, Repr

/-- `JSON.stringify` on an `ApiOfflinePayload` object (no characters of
the payload need escaping). -/
def ApiOfflinePayload.stringify (p : ApiOfflinePayload) : String :=
  "\x7b\"offline\":" ++ (if p.offline then "true" else "false") ++
    ",\"message\":\"" ++ p.message ++ "\"\x7d"

/-- The synthesized offline API response of `networkFirst`:
`new Response(JSON.stringify({offline: true, message: 'Offline: data
unavailable.'}), {headers: {'Content-Type': 'application/json'}})`,
whose status defaults to 200. -/
def apiOfflineResponse : Response :=
  { status := 200
    contentType := some "application/json"
    body := ApiOfflinePayload.stringify
      { offline := true, message := "Offline: data unavailable." } }

/-- The synthesized generic offline response of `networkFirst`:
`new Response('Resource unavailable offline', {status: 200, headers:
{'Content-Type': 'text/plain'}})`. -/
def genericOfflineResponse : Response :=
  { status := 200
    contentType := some "text/plain"
    body := "Resource unavailable offline" }

/-- The `networkFirst(request, cacheName)` strategy, identical (up to
logging and awaiting the cache write) in `sw.js` lines 99-128 (SW6),
301-358 (SW7), 600-657 (SW9) and `app.js` lines 246-320 (APP15):
try the network; cache and return an ok response; on a network failure
fall back to `caches.match(request)` over ALL buckets, then to the
offline API synthesis, then (for navigations) to
`caches.match('./index.html')` returned unconditionally, then to the
generic plain-text response.  Cache writes are modelled as succeeding.
Returns the value supplied to the caller (`none` models the handler
returning `undefined`) together with the updated storage. -/
def networkFirst (net : Net) (s : CacheStorage) (request : Request)
    (cacheName : String) : Option Response × CacheStorage :=
  match net request.url with
  | .success networkResponse =>
      if networkResponse.ok then
        (some networkResponse, storagePut s cacheName request.url networkResponse)
      else
        (some networkResponse, s)
  | .failure _ =>
      match cachesMatch s request.url with
      | some cached => (some cached, s)
      | none =>
          if strContains request.url "/api/" || strContains request.url "/graphql" then
            (some apiOfflineResponse, s)
          else if request.mode = "navigate" then
            (cachesMatch s "./index.html", s)
          else
            (some genericOfflineResponse, s)

/-- Environment of one install run: the outcome of fetching each asset
URL, and whether the cache write for that asset succeeds. -/
structure InstallEnv where
  fetchAsset : String → NetOutcome
  putOk : String → Bool

/-- The `cache.addAll(assets)` call: fetches every asset and writes all
of them, rejecting (and then writing nothing) when any fetch fails, any
response is not ok, or any write fails. -/
def cacheAddAll (env : InstallEnv) (s : CacheStorage) (name : String)
    (assets : List String) : Option CacheStorage :=
  if assets.all (fun a =>
      match env.fetchAsset a with
      | .success r => r.ok && env.putOk a
      | .failure _ => false) then
    some (assets.foldl (fun acc a =>
      match env.fetchAsset a with
      | .success r => storagePut acc name a r
      | .failure _ => acc) s)
  else
    none

/-- Whether the promise handed to `event.waitUntil` in the install
handler resolves or rejects. -/
inductive InstallResult where
  | resolved
  | rejected
deriving DecidableEq, Repr

/-- Observable steps of an activate handler, in execution order. -/
inductive ActEvent where
  | deletedBucket (name : String)
  | claimedClients
deriving DecidableEq, Repr

/-- Payload of a `message` event (`event.data`), with its `type` tag
and the `isOnline` field of `NETWORK_STATUS` messages. -/
structure MsgData where
  type : String
  isOnline : Bool
deriving DecidableEq, Repr

/-- Outbound worker-to-page messages a message handler can post. -/
inductive OutMsg where
  | pong
deriving DecidableEq, Repr

namespace SW6

/-- `CACHE_NAMES` of the first `sw.js` variant (lines 9-12). -/
def CACHE_NAMES : CacheNames :=
  { static := "static-cache-v6", dynamic := "dynamic-cache-v6" }

/-- `CORE_ASSETS` of the first `sw.js` variant (lines 16-19). -/
def CORE_ASSETS : List String :=
  ["./", "./index.html"]

/-- `ADDITIONAL_ASSETS` of the first `sw.js` variant (lines 22-28). -/
def ADDITIONAL_ASSETS : List String :=
  ["./favicon.ico", "./apple-touch-icon.png", "./pwa-192x192.png",
   "./pwa-512x512.png", "./manifest.webmanifest"]

/-- The install handler of `sw.js` lines 31-71: open the static bucket,
`addAll` the core assets, then fetch-and-put each additional asset with
a per-asset catch.  The whole chain ends in
`.catch((error) => console.error(...))`, so the promise handed to
`event.waitUntil` resolves even when `addAll` rejects; a per-asset
failure (fetch, non-ok response or put) only skips that asset. -/
def install (env : InstallEnv) (s : CacheStorage) : InstallResult × CacheStorage :=
  let s1 := storageOpen s CACHE_NAMES.static
  match cacheAddAll env s1 CACHE_NAMES.static CORE_ASSETS with
  | none => (.resolved, s1)
  | some s2 =>
      (.resolved, ADDITIONAL_ASSETS.foldl (fun acc a =>
        match env.fetchAsset a with
        | .success r =>
            if r.ok && env.putOk a then storagePut acc CACHE_NAMES.static a r else acc
        | .failure _ => acc) s2)

/-- The activate handler of `sw.js` lines 74-96: enumerate
`caches.keys()`, delete every key not among `Object.values(CACHE_NAMES)`,
and only then claim the clients. -/
def activate (s : CacheStorage) : CacheStorage × List ActEvent :=
  let oldKeys := (storageKeys s).filter (fun k => decide (k ∉ CACHE_NAMES.values))
  (oldKeys.foldl storageDelete s,
   oldKeys.map ActEvent.deletedBucket ++ [ActEvent.claimedClients])

/-- The fetch handler of `sw.js` lines 154-185: pass through non-GET
requests; dispatch navigations to `networkFirst` on the static bucket,
static assets to `staleWhileRevalidate` on the static bucket, API paths
to `networkFirst` on the dynamic bucket, and everything else to
`staleWhileRevalidate` on the dynamic bucket.  Returns the one strategy
and cache name handed to `event.respondWith`, `none` when the handler
returns without responding. -/
def routeFetch (request : Request) : Option (Strategy × String) :=
  if request.method ≠ "GET" then none
  else if request.mode = "navigate" then
    some (.networkFirst, CACHE_NAMES.static)
  else if isStaticAsset request then
    some (.staleWhileRevalidate, CACHE_NAMES.static)
  else if strContains request.pathname "/api/" || strContains request.pathname "/graphql" then
    some (.networkFirst, CACHE_NAMES.dynamic)
  else
    some (.staleWhileRevalidate, CACHE_NAMES.dynamic)

/-- The `staleWhileRevalidate(request, cacheName)` strategy of `sw.js`
lines 131-151 (the SW7/SW9 copies at lines 360-432 and 659-731 add only
logging): open the bucket, look the request up in it, start the network
fetch, and return the cached response when present (`cachedResponse ||
networkFetchPromise`), else the network promise.  The network `.then`
writes an ok response back (write success given by `putOk`); the
`.catch` rethrows only when there was no cached response.  Returns the
caller's outcome (`Except.error` models a rejected promise) and the
updated storage. -/
def staleWhileRevalidate (net : Net) (putOk : Bool) (s : CacheStorage)
    (request : Request) (cacheName : String) : Except String Response × CacheStorage :=
  let s1 := storageOpen s cacheName
  match bucketMatch (storageBucket s1 cacheName) request.url with
  | some cachedResponse =>
      match net request.url with
      | .success networkResponse =>
          (Except.ok cachedResponse,
           if networkResponse.ok && putOk then
             storagePut s1 cacheName request.url networkResponse
           else s1)
      | .failure _ => (Except.ok cachedResponse, s1)
  | none =>
      match net request.url with
      | .success networkResponse =>
          (Except.ok networkResponse,
           if networkResponse.ok && putOk then
             storagePut s1 cacheName request.url networkResponse
           else s1)
      | .failure err => (Except.error err, s1)

/-- The message handler of `sw.js` lines 188-192: a `NETWORK_STATUS`
message is logged; every other message (including a missing
`event.data`) falls through the single `if`.  Neither branch touches a
bucket or posts a message. -/
def handleMessage (s : CacheStorage) (data : Option MsgData) :
    CacheStorage × List OutMsg :=
  match data with
  | some d => if d.type = "NETWORK_STATUS" then (s, []) else (s, [])
  | none => (s, [])

end SW6

namespace SW7

/-- `CACHE_NAMES` of the second `sw.js` variant (lines 200-203). -/
def CACHE_NAMES : CacheNames :=
  { static := "static-cache-v7", dynamic := "dynamic-cache-v7" }

/-- The install handler of `sw.js` lines 222-274: same two-phase
caching as SW6, but the inner catch around `addAll` rethrows and the
outer catch ends in `return Promise.reject(mainError)`, so a core-asset
failure rejects the promise handed to `event.waitUntil`; each
additional asset is fetched and put inside its own try/catch and
cannot reject the chain. -/
def install (env : InstallEnv) (s : CacheStorage) : InstallResult × CacheStorage :=
  let s1 := storageOpen s CACHE_NAMES.static
  match cacheAddAll env s1 CACHE_NAMES.static SW6.CORE_ASSETS with
  | none => (.rejected, s1)
  | some s2 =>
      (.resolved, SW6.ADDITIONAL_ASSETS.foldl (fun acc a =>
        match env.fetchAsset a with
        | .success r =>
            if r.ok && env.putOk a then storagePut acc CACHE_NAMES.static a r else acc
        | .failure _ => acc) s2)

end SW7

namespace SW9

/-- `CACHE_NAMES` of the third `sw.js` variant (lines 481-484). -/
def CACHE_NAMES : CacheNames :=
  { static := "static-cache-v9", dynamic := "dynamic-cache-v9" }

/-- The message handler of `sw.js` lines 810-823: `NETWORK_STATUS` is
logged, `PING` is answered with a `PONG` posted to the source, and any
other message (or missing `event.data`) matches no branch.  No branch
touches a bucket. -/
def handleMessage (s : CacheStorage) (data : Option MsgData) :
    CacheStorage × List OutMsg :=
  match data with
  | none => (s, [])
  | some d =>
      if d.type = "NETWORK_STATUS" then (s, [])
      else if d.type = "PING" then (s, [OutMsg.pong])
      else (s, [])

end SW9

namespace APP15

/-- `CACHE_NAMES` of the worker variant in `app.js` (lines 177-180). -/
def CACHE_NAMES : CacheNames :=
  { static := "static-cache-v15", dynamic := "dynamic-cache-v8" }

/-- The activate handler of `app.js` lines 236-243: it claims the
clients immediately and schedules an update check; it enumerates no
cache keys and deletes no bucket. -/
def activate (s : CacheStorage) : CacheStorage × List ActEvent :=
  (s, [ActEvent.claimedClients])

/-- The fetch handler of `app.js` lines 408-446: same first-match
classification as SW6, except that navigations are dispatched to
`staleWhileRevalidate` (still on the static bucket). -/
def routeFetch (request : Request) : Option (Strategy × String) :=
  if request.method ≠ "GET" then none
  else if request.mode = "navigate" then
    some (.staleWhileRevalidate, CACHE_NAMES.static)
  else if isStaticAsset request then
    some (.staleWhileRevalidate, CACHE_NAMES.static)
  else if strContains request.pathname "/api/" || strContains request.pathname "/graphql" then
    some (.networkFirst, CACHE_NAMES.dynamic)
  else
    some (.staleWhileRevalidate, CACHE_NAMES.dynamic)

/-- The `staleWhileRevalidate(request, cacheName)` strategy of `app.js`
lines 323-405: open the bucket and start the cache lookup and the
network fetch; on a cache hit return the cached response at once,
updating the bucket in the background when the network response is ok
(the background `.then`/`.catch` only log otherwise); on a cache miss
await the network, cache an ok response, and rethrow a network
failure. -/
def staleWhileRevalidate (net : Net) (putOk : Bool) (s : CacheStorage)
    (request : Request) (cacheName : String) : Except String Response × CacheStorage :=
  let s1 := storageOpen s cacheName
  match bucketMatch (storageBucket s1 cacheName) request.url with
  | some cachedResponse =>
      match net request.url with
      | .success networkResponse =>
          (Except.ok cachedResponse,
           if networkResponse.ok && putOk then
             storagePut s1 cacheName request.url networkResponse
           else s1)
      | .failure _ => (Except.ok cachedResponse, s1)
  | none =>
      match net request.url with
      | .success networkResponse =>
          (Except.ok networkResponse,
           if networkResponse.ok && putOk then
             storagePut s1 cacheName request.url networkResponse
           else s1)
      | .failure err => (Except.error err, s1)

/-- The message handler of `app.js` lines 449-474: `NETWORK_STATUS` is
logged; `CLEAR_UPDATES` enumerates `caches.keys()` and deletes EVERY
key (`keys.map((key) => caches.delete(key))`); any other message (or a
missing `event.data`) matches no branch.  No branch posts a message. -/
def handleMessage (s : CacheStorage) (data : Option MsgData) :
    CacheStorage × List OutMsg :=
  match data with
  | none => (s, [])
  | some d =>
      if d.type = "NETWORK_STATUS" then (s, [])
      else if d.type = "CLEAR_UPDATES" then
        ((storageKeys s).foldl storageDelete s, [])
      else (s, [])

end APP15

end PWA

namespace PWA

/-! ## Helper lemmas about the cache-storage model -/

theorem storageBucket_storageOpen (s : CacheStorage) (name : String) :
    storageBucket (storageOpen s name) name = storageBucket s name := by
  induction s with
  | nil => simp [storageOpen, storageBucket]
  | cons kv rest ih =>
      by_cases h : kv.fst = name <;> simp [storageOpen, storageBucket, h, ih]

theorem storageBucket_storagePut (s : CacheStorage) (name url : String) (r : Response) :
    storageBucket (storagePut s name url r) name = bucketPut (storageBucket s name) url r := by
  induction s with
  | nil => simp [storagePut, storageBucket, bucketPut]
  | cons kv rest ih =>
      by_cases h : kv.fst = name <;> simp [storagePut, storageBucket, h, ih]

theorem bucketMatch_bucketPut (b : Bucket) (url : String) (r : Response) :
    bucketMatch (bucketPut b url r) url = some r := by
  induction b with
  | nil =>
      show bucketMatch [(url, r)] url = some r
      simp [bucketMatch]
  | cons kv rest ih =>
      by_cases h : kv.fst = url <;> simp [bucketPut, bucketMatch, h, ih]

theorem mem_storageDelete (s : CacheStorage) (name : String) (kv : String × Bucket) :
    kv ∈ storageDelete s name ↔ (kv ∈ s ∧ kv.fst ≠ name) := by
  induction s with
  | nil => simp [storageDelete]
  | cons hd rest ih =>
      by_cases h : hd.fst = name
      · simp only [storageDelete, if_pos h, ih, List.mem_cons]
        constructor
        · exact fun hkv => ⟨Or.inr hkv.1, hkv.2⟩
        · rintro ⟨hkv | hkv, hne⟩
          · exact absurd (hkv ▸ h) hne
          · exact ⟨hkv, hne⟩
      · simp only [storageDelete, if_neg h, List.mem_cons, ih]
        constructor
        · rintro (rfl | hkv)
          · exact ⟨Or.inl rfl, h⟩
          · exact ⟨Or.inr hkv.1, hkv.2⟩
        · rintro ⟨rfl | hkv, hne⟩
          · exact Or.inl rfl
          · exact Or.inr ⟨hkv, hne⟩

theorem mem_foldl_storageDelete (ks : List String) :
    ∀ (s : CacheStorage) (kv : String × Bucket),
      kv ∈ ks.foldl storageDelete s ↔ (kv ∈ s ∧ kv.fst ∉ ks) := by
  induction ks with
  | nil => simp
  | cons k rest ih =>
      intro s kv
      rw [List.foldl_cons, ih, mem_storageDelete]
      simp only [List.mem_cons, not_or]
      tauto

end PWA

namespace PWA

/-! ## Concrete fixtures used by witnesses and counterexamples -/

/-- A sample ok HTML response. -/
def okHtml : Response :=
  { status := 200, contentType := some "text/html", body := "<html>" }

/-- A sample ok stylesheet response. -/
def cssResponse : Response :=
  { status := 200, contentType := some "text/css", body := "body: a" }

/-- A sample cached API response living in a bucket other than the
strategy's bucket argument. -/
def respOther : Response :=
  { status := 200, contentType := some "application/json", body := "from-other-bucket" }

/-- A sample cached API response living in the strategy's bucket
argument. -/
def respDyn : Response :=
  { status := 200, contentType := some "application/json", body := "from-dynamic-bucket" }

/-- A network on which every fetch rejects. -/
def netDown : Net := fun _ => .failure "offline"

/-- A network on which every fetch yields `cssResponse`. -/
def netOkCss : Net := fun _ => .success cssResponse

/-- A GET navigation request whose URL has no API marker. -/
def navRequest : Request :=
  { method := "GET", url := "https://example.test/page", pathname := "/page"
    destination := "document", mode := "navigate" }

/-- A GET data request with no API marker and no static extension. -/
def dataRequest : Request :=
  { method := "GET", url := "https://example.test/data", pathname := "/data"
    destination := "", mode := "cors" }

/-- A GET request whose URL contains `/api/`. -/
def apiRequest : Request :=
  { method := "GET", url := "https://example.test/api/items", pathname := "/api/items"
    destination := "", mode := "cors" }

/-- A GET stylesheet request. -/
def cssRequest : Request :=
  { method := "GET", url := "https://example.test/app.css", pathname := "/app.css"
    destination := "style", mode := "no-cors" }

/-- An install environment on which fetching the core asset
`./index.html` rejects and everything else succeeds. -/
def coreFailEnv : InstallEnv :=
  { fetchAsset := fun a => if a = "./index.html" then .failure "network error" else .success okHtml
    putOk := fun _ => true }

/-- An install environment on which fetching the additional asset
`./favicon.ico` rejects and everything else succeeds. -/
def addFailEnv : InstallEnv :=
  { fetchAsset := fun a => if a = "./favicon.ico" then .failure "network error" else .success okHtml
    putOk := fun _ => true }

/-! ## The claims -/

/-- C1: The request router dispatches every intercepted request by
first-match-wins classification: any non-GET request is passed through
untouched (no strategy is invoked); otherwise a navigation-mode request
goes to bucket `static` (network-first in the `sw.js` handler,
stale-while-revalidate in the `app.js` handler — the spec's two stated
alternatives); otherwise a request whose destination is one of
style/script/font/image or whose path matches the static extension set
goes to stale-while-revalidate with bucket `static`; otherwise a
request whose path contains `/api/` or `/graphql` goes to network-first
with bucket `dynamic`; every remaining GET request goes to
stale-while-revalidate with bucket `dynamic`.  `routeFetch` being a
function into `Option (Strategy × String)` that is `some` on every GET
request models that exactly one strategy is invoked per handled
request. -/
theorem router_first_match_dispatch : ∀ request : Request,
    (request.method ≠ "GET" →
      SW6.routeFetch request = none ∧ APP15.routeFetch request = none)
    ∧ (request.method = "GET" →
      (SW6.routeFetch request).isSome = true ∧ (APP15.routeFetch request).isSome = true)
    ∧ (request.method = "GET" → request.mode = "navigate" →
      SW6.routeFetch request = some (Strategy.networkFirst, SW6.CACHE_NAMES.static)
      ∧ APP15.routeFetch request = some (Strategy.staleWhileRevalidate, APP15.CACHE_NAMES.static))
    ∧ (request.method = "GET" → request.mode ≠ "navigate" → isStaticAsset request = true →
      SW6.routeFetch request = some (Strategy.staleWhileRevalidate, SW6.CACHE_NAMES.static)
      ∧ APP15.routeFetch request = some (Strategy.staleWhileRevalidate, APP15.CACHE_NAMES.static))
    ∧ (request.method = "GET" → request.mode ≠ "navigate" → isStaticAsset request = false →
      (strContains request.pathname "/api/" || strContains request.pathname "/graphql") = true →
      SW6.routeFetch request = some (Strategy.networkFirst, SW6.CACHE_NAMES.dynamic)
      ∧ APP15.routeFetch request = some (Strategy.networkFirst, APP15.CACHE_NAMES.dynamic))
    ∧ (request.method = "GET" → request.mode ≠ "navigate" → isStaticAsset request = false →
      (strContains request.pathname "/api/" || strContains request.pathname "/graphql") = false →
      SW6.routeFetch request = some (Strategy.staleWhileRevalidate, SW6.CACHE_NAMES.dynamic)
      ∧ APP15.routeFetch request = some (Strategy.staleWhileRevalidate, APP15.CACHE_NAMES.dynamic)) := by
  intro request
  refine ⟨?_, ?_, ?_, ?_, ?_, ?_⟩
  · intro h
    simp [SW6.routeFetch, APP15.routeFetch, h]
  · intro h
    simp only [SW6.routeFetch, APP15.routeFetch, h]
    constructor <;> · (repeat' split) <;> simp_all
  · intro h hnav
    simp [SW6.routeFetch, APP15.routeFetch, h, hnav]
  · intro h hnav hst
    simp [SW6.routeFetch, APP15.routeFetch, h, hnav, hst]
  · intro h hnav hst hapi
    simp [SW6.routeFetch, APP15.routeFetch, h, hnav, hst, hapi]
  · intro h hnav hst hapi
    simp [SW6.routeFetch, APP15.routeFetch, h, hnav, hst, hapi]

end PWA

namespace PWA

/-- C2 evidence: on an environment where fetching the core asset
`./index.html` fails, the SW6 install promise still RESOLVES (its
trailing `.catch` at `sw.js` lines 64-66 swallows the `addAll`
rejection), contradicting the claim, while the SW7 install promise
rejects as the claim states; on an environment where only the
additional asset `./favicon.ico` fails, both installs resolve, as the
claim's additional-asset half states. -/
theorem install_core_failure_divergence :
    (SW6.install coreFailEnv []).fst = InstallResult.resolved
    ∧ (SW7.install coreFailEnv []).fst = InstallResult.rejected
    ∧ (SW6.install addFailEnv []).fst = InstallResult.resolved
    ∧ (SW7.install addFailEnv []).fst = InstallResult.resolved := by
  decide

/-- C3 counterexample: with the current static bucket
(`static-cache-v15`) present and holding an entry, a `CLEAR_UPDATES`
message empties the whole cache storage — the current buckets are
deleted too, not left untouched as the claim states. -/
theorem clear_updates_deletes_current_buckets :
    "static-cache-v15" = APP15.CACHE_NAMES.static
    ∧ bucketMatch
        (storageBucket
          [("static-cache-v15", [("./", okHtml)]), ("dynamic-cache-v8", [])]
          "static-cache-v15") "./" = some okHtml
    ∧ APP15.handleMessage
        [("static-cache-v15", [("./", okHtml)]), ("dynamic-cache-v8", [])]
        (some { type := "CLEAR_UPDATES", isOnline := true }) = ([], []) := by
  decide

/-- C3 as amended: for every state of the cache storage, handling a
`CLEAR_UPDATES` message deletes EVERY bucket — the `app.js` handler
maps `caches.delete` over all of `caches.keys()` — leaving the storage
empty (current `static` and `dynamic` buckets included), and posts no
message. -/
theorem clear_updates_deletes_all_buckets : ∀ (s : CacheStorage) (b : Bool),
    APP15.handleMessage s (some { type := "CLEAR_UPDATES", isOnline := b }) = ([], []) := by
  intro s b
  have hempty : (storageKeys s).foldl storageDelete s = [] := by
    rw [List.eq_nil_iff_forall_not_mem]
    intro kv hkv
    rw [mem_foldl_storageDelete] at hkv
    exact hkv.2 (List.mem_map_of_mem Prod.fst hkv.1)
  simp [APP15.handleMessage, hempty]

end PWA

namespace PWA

/-- C4 counterexample: a navigation GET with the network down, no
cached entry for the request and `./index.html` in no cache yields NO
response at all (the handler returns the empty `caches.match` result,
modelled as `none`), not the synthesized plain-text
`Resource unavailable offline` response the claim describes. -/
theorem nav_offline_cold_start_returns_no_response :
    (networkFirst netDown [] navRequest "static-cache-v6").fst = none
    ∧ (networkFirst netDown [] navRequest "static-cache-v6").fst ≠ some genericOfflineResponse := by
  decide

/-- C4 as amended: for every navigation-mode GET request handled by
network-first whose network fetch fails, whose request has no cached
entry and whose URL has no `/api/`/`/graphql` marker, the strategy
returns whatever `caches.match('./index.html')` yields, unconditionally
— in particular no response at all when `./index.html` is in no cache —
and never reaches the plain-text `Resource unavailable offline`
synthesis, which is reserved for non-navigation requests. -/
theorem nav_network_first_returns_shell_lookup (net : Net) (s : CacheStorage)
    (request : Request) (cacheName err : String)
    (hnet : net request.url = NetOutcome.failure err)
    (hmiss : cachesMatch s request.url = none)
    (hapi : strContains request.url "/api/" = false)
    (hgql : strContains request.url "/graphql" = false)
    (hnav : request.mode = "navigate") :
    (networkFirst net s request cacheName).fst = cachesMatch s "./index.html"
    ∧ (networkFirst net s request cacheName).snd = s := by
  simp [networkFirst, hnet, hmiss, hapi, hgql, hnav]

/-- C4 witness: the amended theorem applied at the concrete
cold-start-offline navigation input. -/
theorem nav_network_first_returns_shell_lookup_witness :
    (networkFirst netDown [] navRequest "static-cache-v6").fst = cachesMatch [] "./index.html"
    ∧ (networkFirst netDown [] navRequest "static-cache-v6").snd = ([] : CacheStorage) :=
  nav_network_first_returns_shell_lookup netDown [] navRequest "static-cache-v6" "offline"
    rfl rfl (by decide) (by decide) rfl

/-- C7: for every request handled by network-first whose network fetch
fails, whose cache lookup finds nothing, and whose URL contains
`/api/` or `/graphql`, the strategy returns the synthesized response
whose body is `JSON.stringify` of `{offline: true, message: "Offline:
data unavailable."}`, with content-type `application/json` and status
200 (the platform default), leaving the storage unchanged. -/
theorem api_offline_synthesis (net : Net) (s : CacheStorage)
    (request : Request) (cacheName err : String)
    (hnet : net request.url = NetOutcome.failure err)
    (hmiss : cachesMatch s request.url = none)
    (hapi : (strContains request.url "/api/" || strContains request.url "/graphql") = true) :
    (networkFirst net s request cacheName).fst = some apiOfflineResponse
    ∧ apiOfflineResponse.body = ApiOfflinePayload.stringify
        { offline := true, message := "Offline: data unavailable." }
    ∧ apiOfflineResponse.contentType = some "application/json"
    ∧ apiOfflineResponse.status = 200
    ∧ (networkFirst net s request cacheName).snd = s := by
  refine ⟨?_, rfl, rfl, rfl, ?_⟩ <;> simp [networkFirst, hnet, hmiss, hapi]

/-- C7 witness: the theorem applied at a concrete offline `/api/`
request against an empty storage. -/
theorem api_offline_synthesis_witness :
    (networkFirst netDown [] apiRequest "dynamic-cache-v6").fst = some apiOfflineResponse
    ∧ apiOfflineResponse.body = ApiOfflinePayload.stringify
        { offline := true, message := "Offline: data unavailable." }
    ∧ apiOfflineResponse.contentType = some "application/json"
    ∧ apiOfflineResponse.status = 200
    ∧ (networkFirst netDown [] apiRequest "dynamic-cache-v6").snd = ([] : CacheStorage) :=
  api_offline_synthesis netDown [] apiRequest "dynamic-cache-v6" "offline" rfl rfl (by decide)

/-- C9 counterexample: with the network down, the entry for the request
sitting in an earlier bucket `aaa-other-cache` AND a different entry
for the same URL sitting in the strategy's bucket argument
`dynamic-cache-v6`, network-first returns the earlier bucket's entry,
not the entry of the bucket it was given — the fallback lookup is
`caches.match` over all buckets, not a lookup in the bucket argument. -/
theorem network_first_fallback_ignores_bucket_argument :
    (networkFirst netDown
      [("aaa-other-cache", [("https://example.test/data", respOther)]),
       ("dynamic-cache-v6", [("https://example.test/data", respDyn)])]
      dataRequest "dynamic-cache-v6").fst = some respOther
    ∧ bucketMatch
        (storageBucket
          [("aaa-other-cache", [("https://example.test/data", respOther)]),
           ("dynamic-cache-v6", [("https://example.test/data", respDyn)])]
          "dynamic-cache-v6") dataRequest.url = some respDyn
    ∧ respOther ≠ respDyn := by
  decide

/-- C9 as amended: when the network fetch fails in network-first, the
fallback lookup is `caches.match(request)` against the ENTIRE cache
storage (every bucket in creation order, not just the bucket argument),
and the first matching entry from any bucket is returned if one
exists. -/
theorem network_first_fallback_searches_all_buckets (net : Net) (s : CacheStorage)
    (request : Request) (cacheName err : String) (cached : Response)
    (hnet : net request.url = NetOutcome.failure err)
    (hhit : cachesMatch s request.url = some cached) :
    (networkFirst net s request cacheName).fst = some cached
    ∧ (networkFirst net s request cacheName).snd = s := by
  simp [networkFirst, hnet, hhit]

/-- C9 witness: the amended theorem applied at a concrete offline
request whose entry lives in a bucket other than the bucket
argument. -/
theorem network_first_fallback_searches_all_buckets_witness :
    (networkFirst netDown [("aaa-other-cache", [("https://example.test/data", respOther)])]
      dataRequest "dynamic-cache-v6").fst = some respOther
    ∧ (networkFirst netDown [("aaa-other-cache", [("https://example.test/data", respOther)])]
      dataRequest "dynamic-cache-v6").snd
      = [("aaa-other-cache", [("https://example.test/data", respOther)])] :=
  network_first_fallback_searches_all_buckets netDown
    [("aaa-other-cache", [("https://example.test/data", respOther)])]
    dataRequest "dynamic-cache-v6" "offline" respOther rfl (by decide)

end PWA

namespace PWA

/-- C5: for every request handled by stale-while-revalidate (in both
the `sw.js` and the `app.js` variant) for which a cached entry exists
in the given bucket, the caller is handed that cached entry — for every
network outcome and every background cache-write outcome, so neither
the concurrent fetch nor the write can change the delivered response or
surface an error (`Except.ok` for every `net` and `putOk`). -/
theorem swr_cache_hit_served_immediately (net : Net) (putOk : Bool) (s : CacheStorage)
    (request : Request) (cacheName : String) (cached : Response)
    (hhit : bucketMatch (storageBucket s cacheName) request.url = some cached) :
    (SW6.staleWhileRevalidate net putOk s request cacheName).fst = Except.ok cached
    ∧ (APP15.staleWhileRevalidate net putOk s request cacheName).fst = Except.ok cached := by
  have hh : bucketMatch (storageBucket (storageOpen s cacheName) cacheName) request.url
      = some cached := by
    rw [storageBucket_storageOpen]; exact hhit
  constructor <;>
    · simp only [SW6.staleWhileRevalidate, APP15.staleWhileRevalidate, hh]
      cases net request.url <;> simp

/-- C5 witness: the theorem applied with the stylesheet entry cached in
the static bucket and the network down. -/
theorem swr_cache_hit_served_immediately_witness :
    (SW6.staleWhileRevalidate netDown true
      [("static-cache-v6", [("https://example.test/app.css", cssResponse)])]
      cssRequest "static-cache-v6").fst = Except.ok cssResponse
    ∧ (APP15.staleWhileRevalidate netDown true
      [("static-cache-v6", [("https://example.test/app.css", cssResponse)])]
      cssRequest "static-cache-v6").fst = Except.ok cssResponse :=
  swr_cache_hit_served_immediately netDown true
    [("static-cache-v6", [("https://example.test/app.css", cssResponse)])]
    cssRequest "static-cache-v6" cssResponse (by decide)

/-- C6: for every request handled by stale-while-revalidate (both
variants) with no cached entry in the bucket, the caller receives the
network outcome: an arriving response is returned as-is (and written to
the bucket when it is ok and the write succeeds), and a network failure
propagates to the caller as `Except.error` — no synthesized or shell
fallback is produced on this path. -/
theorem swr_cache_miss_awaits_network (net : Net) (putOk : Bool) (s : CacheStorage)
    (request : Request) (cacheName : String)
    (hmiss : bucketMatch (storageBucket s cacheName) request.url = none) :
    (∀ resp : Response, net request.url = NetOutcome.success resp →
      (SW6.staleWhileRevalidate net putOk s request cacheName).fst = Except.ok resp
      ∧ (APP15.staleWhileRevalidate net putOk s request cacheName).fst = Except.ok resp
      ∧ (resp.ok = true → putOk = true →
        bucketMatch
          (storageBucket (SW6.staleWhileRevalidate net putOk s request cacheName).snd cacheName)
          request.url = some resp
        ∧ bucketMatch
          (storageBucket (APP15.staleWhileRevalidate net putOk s request cacheName).snd cacheName)
          request.url = some resp))
    ∧ (∀ err : String, net request.url = NetOutcome.failure err →
      (SW6.staleWhileRevalidate net putOk s request cacheName).fst = Except.error err
      ∧ (APP15.staleWhileRevalidate net putOk s request cacheName).fst = Except.error err) := by
  have hm : bucketMatch (storageBucket (storageOpen s cacheName) cacheName) request.url
      = none := by
    rw [storageBucket_storageOpen]; exact hmiss
  constructor
  · intro resp hnet
    refine ⟨?_, ?_, ?_⟩
    · simp [SW6.staleWhileRevalidate, hm, hnet]
    · simp [APP15.staleWhileRevalidate, hm, hnet]
    · intro hok hput
      constructor <;>
        · simp [SW6.staleWhileRevalidate, APP15.staleWhileRevalidate, hm, hnet, hok, hput,
            storageBucket_storagePut, bucketMatch_bucketPut]
  · intro err hnet
    constructor <;>
      simp [SW6.staleWhileRevalidate, APP15.staleWhileRevalidate, hm, hnet]

/-- C6 witness: the theorem applied on an empty storage with the
network answering the stylesheet response, in its success branch. -/
theorem swr_cache_miss_awaits_network_witness :
    (SW6.staleWhileRevalidate netOkCss true [] cssRequest "static-cache-v6").fst
      = Except.ok cssResponse
    ∧ (APP15.staleWhileRevalidate netOkCss true [] cssRequest "static-cache-v6").fst
      = Except.ok cssResponse :=
  ⟨((swr_cache_miss_awaits_network netOkCss true [] cssRequest "static-cache-v6" rfl).1
      cssResponse rfl).1,
   ((swr_cache_miss_awaits_network netOkCss true [] cssRequest "static-cache-v6" rfl).1
      cssResponse rfl).2.1⟩

/-- C8 counterexample: the `app.js` activate handler (lines 236-243)
performs no cleanup: with a stale bucket `static-cache-v1` present,
activation leaves the storage unchanged, the stale name still
enumerates afterwards although it is not a current generation name, and
the handler claims clients immediately (its whole trace). -/
theorem app15_activate_no_cleanup :
    (APP15.activate
      [("static-cache-v1", []), ("static-cache-v15", []), ("dynamic-cache-v8", [])]).fst
      = [("static-cache-v1", []), ("static-cache-v15", []), ("dynamic-cache-v8", [])]
    ∧ "static-cache-v1" ∈ storageKeys (APP15.activate
        [("static-cache-v1", []), ("static-cache-v15", []), ("dynamic-cache-v8", [])]).fst
    ∧ "static-cache-v1" ∉ APP15.CACHE_NAMES.values
    ∧ (APP15.activate
        [("static-cache-v1", []), ("static-cache-v15", []), ("dynamic-cache-v8", [])]).snd
      = [ActEvent.claimedClients] := by
  decide

/-- C8 as amended: the `sw.js` activate handler enumerates all bucket
names and deletes exactly those not among the two current generation
names — afterwards a bucket (and hence a bucket name) survives iff it
was present and is current — and its trace performs the deletions
strictly before claiming clients; the `app.js` variant, by contrast,
performs no cleanup at all (see the counterexample). -/
theorem sw_activate_generation_gc : ∀ s : CacheStorage,
    (∀ kv : String × Bucket, kv ∈ (SW6.activate s).fst ↔
      (kv ∈ s ∧ kv.fst ∈ SW6.CACHE_NAMES.values))
    ∧ (∀ name : String, name ∈ storageKeys (SW6.activate s).fst ↔
      (name ∈ storageKeys s ∧ name ∈ SW6.CACHE_NAMES.values))
    ∧ (SW6.activate s).snd =
      ((storageKeys s).filter (fun k => decide (k ∉ SW6.CACHE_NAMES.values))).map
        ActEvent.deletedBucket ++ [ActEvent.claimedClients] := by
  intro s
  have hfst : ∀ kv : String × Bucket, kv ∈ (SW6.activate s).fst ↔
      (kv ∈ s ∧ kv.fst ∈ SW6.CACHE_NAMES.values) := by
    intro kv
    show kv ∈ ((storageKeys s).filter
      (fun k => decide (k ∉ SW6.CACHE_NAMES.values))).foldl storageDelete s ↔ _
    rw [mem_foldl_storageDelete]
    constructor
    · rintro ⟨hkv, hnot⟩
      refine ⟨hkv, ?_⟩
      by_contra hv
      exact hnot (List.mem_filter.mpr
        ⟨List.mem_map_of_mem Prod.fst hkv, by simpa using hv⟩)
    · rintro ⟨hkv, hv⟩
      refine ⟨hkv, fun hmem => ?_⟩
      have hdec := (List.mem_filter.mp hmem).2
      simp only [decide_eq_true_eq] at hdec
      exact hdec hv
  refine ⟨hfst, ?_, rfl⟩
  intro name
  constructor
  · intro hname
    rcases List.mem_map.mp hname with ⟨kv, hkv, rfl⟩
    rcases (hfst kv).mp hkv with ⟨hkv_s, hv⟩
    exact ⟨List.mem_map_of_mem Prod.fst hkv_s, hv⟩
  · rintro ⟨hname, hv⟩
    rcases List.mem_map.mp hname with ⟨kv, hkv, rfl⟩
    exact List.mem_map_of_mem Prod.fst ((hfst kv).mpr ⟨hkv, hv⟩)

/-- C10: in all three message handlers, a missing `event.data`, or a
type tag that is none of the handled kinds (`NETWORK_STATUS`, `PING`,
`CLEAR_UPDATES`), leaves every cache bucket untouched and posts no
outbound message, and a `NETWORK_STATUS` message likewise only logs —
the handlers are total functions, so completion without throwing is
inherent in the model. -/
theorem message_handler_unhandled_noop : ∀ (s : CacheStorage) (d : MsgData),
    (SW6.handleMessage s none = (s, [])
      ∧ SW9.handleMessage s none = (s, [])
      ∧ APP15.handleMessage s none = (s, []))
    ∧ (d.type ≠ "NETWORK_STATUS" → d.type ≠ "PING" → d.type ≠ "CLEAR_UPDATES" →
      SW6.handleMessage s (some d) = (s, [])
      ∧ SW9.handleMessage s (some d) = (s, [])
      ∧ APP15.handleMessage s (some d) = (s, []))
    ∧ (d.type = "NETWORK_STATUS" →
      SW6.handleMessage s (some d) = (s, [])
      ∧ SW9.handleMessage s (some d) = (s, [])
      ∧ APP15.handleMessage s (some d) = (s, [])) := by
  intro s d
  refine ⟨⟨rfl, rfl, rfl⟩, ?_, ?_⟩
  · intro h1 h2 h3
    refine ⟨?_, ?_, ?_⟩ <;>
      simp [SW6.handleMessage, SW9.handleMessage, APP15.handleMessage, h1, h2, h3]
  · intro h
    refine ⟨?_, ?_, ?_⟩ <;>
      simp [SW6.handleMessage, SW9.handleMessage, APP15.handleMessage, h]

end PWA
